import Mathlib

/-!
Shallow embedding of the core of the firestarr wildland fire-growth
simulator, together with proofs of the specification claims.

Conventions:
* `MathSize` / `DurationSize` / `ThresholdSize` (C++ floating-point types)
  are modelled as `ℚ` where only arithmetic and comparisons occur, and as
  `ℝ` where transcendental functions (`exp`, `π`) appear.
* fallible C++ code (`.at` throwing `std::out_of_range`) is modelled with
  `Option`.
* `size_t` arithmetic that can wrap is modelled with explicit `% 2^64`.
-/

set_option maxRecDepth 40000

namespace Firestarr

/-! ## C2: `runs_required` (Model.cpp) -/

/-- Result of `util::Statistics` queries used by `runs_required`:
`isConfident(confidenceLevel)` and `runsRequired(confidenceLevel)` at the
configured confidence level (Statistics.h is an external collaborator, so
the two query results are taken as inputs). -/
structure StatsQuery where
  confident : Bool
  runsNeeded : ℕ

/-- Embedding of `runs_required` from Model.cpp: early return 0 when
deterministic, over the simulation-count limit, or out of time; return 0
when all three statistics are confident; otherwise max of the three
`runsRequired` values. -/
def runs_required (deterministic overSimCountLimit outOfTime : Bool)
    (for_sizes for_means for_pct : StatsQuery) : ℕ :=
  if deterministic then 0
  else if overSimCountLimit then 0
  else if outOfTime then 0
  else if !(!for_means.confident || !for_pct.confident || !for_sizes.confident) then 0
  else max (max for_means.runsNeeded for_pct.runsNeeded) for_sizes.runsNeeded

/-- Statement of claim C2 following the spec text: stop (0) iff
deterministic mode, or a resource limit tripped, or all three statistics
are confident; otherwise the max of the three `runsRequired` values. -/
def runs_required_spec (deterministic overSimCountLimit outOfTime : Bool)
    (for_sizes for_means for_pct : StatsQuery) : ℕ :=
  if deterministic || overSimCountLimit || outOfTime
      || (for_sizes.confident && for_means.confident && for_pct.confident) then 0
  else max (max for_means.runsNeeded for_pct.runsNeeded) for_sizes.runsNeeded

/-- C2: `runs_required` returns 0 exactly when deterministic mode is on, a
simulation-count or time limit has been reached, or all three running
statistics are confident; in every other case it returns the maximum of
the three per-statistic `runsRequired` values. -/
theorem runs_required_correct (deterministic overSimCountLimit outOfTime : Bool)
    (for_sizes for_means for_pct : StatsQuery) :
    runs_required deterministic overSimCountLimit outOfTime for_sizes for_means for_pct
      = runs_required_spec deterministic overSimCountLimit outOfTime
          for_sizes for_means for_pct := by
  cases deterministic <;> cases overSimCountLimit <;> cases outOfTime <;>
    simp [runs_required, runs_required_spec] <;>
    cases h1 : for_sizes.confident <;> cases h2 : for_means.confident <;>
      cases h3 : for_pct.confident <;> simp [h1, h2, h3]

/-! ## C5: task-limiter limit in `Model::runIterations` (Model.cpp) -/

/-- Embedding of `Semaphore::set_limit`: the semaphore's limit is simply
replaced (the semaphore state is its limit for this claim). -/
def set_limit (_currentLimit newLimit : ℕ) : ℕ := newLimit

/-- Initial limit of `Model::task_limiter`: `hardware_concurrency()`
(Model.cpp line 24). -/
def task_limiter_init (hardware_concurrency : ℕ) : ℕ := hardware_concurrency

/-- Embedding of the limit adjustment in `Model::runIterations` for the
async path: `MAX_THREADS = max(HARDWARE_THREADS, scenarios_per_iteration)`
and the limit is raised via `set_limit` only when
`MAX_THREADS > HARDWARE_THREADS`. Returns the final semaphore limit. -/
def runIterations_limit (hardware_concurrency scenarios_per_iteration : ℕ) : ℕ :=
  let HARDWARE_THREADS := hardware_concurrency
  let MAX_THREADS := max HARDWARE_THREADS scenarios_per_iteration
  if MAX_THREADS > HARDWARE_THREADS then
    set_limit (task_limiter_init hardware_concurrency) MAX_THREADS
  else
    task_limiter_init hardware_concurrency

/-- C5: when running asynchronously the task-limiter limit ends up being
at least `max(hardware_concurrency(), scenarios_per_iteration)`, and when
one iteration has more scenarios than `hardware_concurrency()` the limit
is raised exactly to that scenario count. -/
theorem runIterations_limit_correct (hardware_concurrency scenarios_per_iteration : ℕ) :
    max hardware_concurrency scenarios_per_iteration
        ≤ runIterations_limit hardware_concurrency scenarios_per_iteration
      ∧ (hardware_concurrency < scenarios_per_iteration →
          runIterations_limit hardware_concurrency scenarios_per_iteration
            = scenarios_per_iteration) := by
  unfold runIterations_limit set_limit task_limiter_init
  constructor
  · by_cases h : hardware_concurrency < max hardware_concurrency scenarios_per_iteration
    · simp [h]
    · simp only [h, if_false]
      omega
  · intro h
    have hmax : max hardware_concurrency scenarios_per_iteration = scenarios_per_iteration :=
      max_eq_right (Nat.le_of_lt h)
    simp [hmax, h]

/-- Witness for C5 at a concrete input: 4 hardware threads, 10 scenarios
per iteration. -/
theorem runIterations_limit_correct_witness :
    runIterations_limit 4 10 = 10 :=
  (runIterations_limit_correct 4 10).2 (by decide)

/-! ## C9: BurnedData pool (`Model::getBurnedVector` / `Model::releaseBurnedVector`) -/

/-- BurnedData is a bit-set with one bit per cell ("1 = cannot receive new
fire"). -/
def BurnedData : Type := List Bool

/-- Modelled from the spec: `environment().makeBurnedData()` (Environment.h
is not under src/) allocates a fresh buffer in the environment's initial
state (non-fuel cells marked, no burned cells). The environment's base
state is a parameter. -/
def makeBurnedData (envBase : BurnedData) : BurnedData := envBase

/-- Modelled from the spec: `environment().resetBurnedData(b)`
(Environment.h is not under src/) restores a buffer to the environment's
initial state ("always zeroed before reuse", carrying no burned-cell
state). -/
def resetBurnedData (envBase : BurnedData) (_b : BurnedData) : BurnedData := envBase

/-- State of the `Model`'s buffer pool `vectors_`; the head of the list is
the back of the C++ vector (`push_back` / `back` + `pop_back` both act at
the head here). The pool starts empty. -/
structure PoolState where
  vectors_ : List BurnedData

/-- Embedding of `Model::getBurnedVector`: reuse the last pooled buffer if
any, else allocate a fresh one; returns the buffer and the new pool. -/
def getBurnedVector (envBase : BurnedData) : PoolState → BurnedData × PoolState
  | ⟨[]⟩ => (makeBurnedData envBase, ⟨[]⟩)
  | ⟨v :: rest⟩ => (v, ⟨rest⟩)

/-- Embedding of `Model::releaseBurnedVector`: a null buffer is ignored;
otherwise the buffer is reset via `resetBurnedData` and pushed into the
pool. -/
def releaseBurnedVector (envBase : BurnedData) (s : PoolState) :
    Option BurnedData → PoolState
  | none => s
  | some b => ⟨resetBurnedData envBase b :: s.vectors_⟩

/-- One pool operation: a scenario fetching a buffer or returning one. -/
inductive PoolOp where
  | get : PoolOp
  | release : Option BurnedData → PoolOp

/-- Run a sequence of pool operations from a given pool state (the buffer
returned by `get` is discarded here; `poolInvariant` tracks what it would
be). -/
def runPoolOps (envBase : BurnedData) : List PoolOp → PoolState → PoolState
  | [], s => s
  | PoolOp.get :: rest, s => runPoolOps envBase rest (getBurnedVector envBase s).2
  | PoolOp.release b :: rest, s => runPoolOps envBase rest (releaseBurnedVector envBase s b)

/-- Every buffer in the pool is in the environment's reset state. -/
def poolInvariant (envBase : BurnedData) (s : PoolState) : Prop :=
  ∀ b ∈ s.vectors_, b = envBase

theorem poolInvariant_get (envBase : BurnedData) (s : PoolState)
    (h : poolInvariant envBase s) :
    poolInvariant envBase (getBurnedVector envBase s).2 := by
  obtain ⟨l⟩ := s
  cases l with
  | nil => exact h
  | cons v rest =>
      intro b hb
      exact h b (List.mem_cons_of_mem v hb)

theorem poolInvariant_release (envBase : BurnedData) (s : PoolState)
    (ob : Option BurnedData) (h : poolInvariant envBase s) :
    poolInvariant envBase (releaseBurnedVector envBase s ob) := by
  cases ob with
  | none => exact h
  | some b =>
      intro x hx
      rcases List.mem_cons.mp hx with hx | hx
      · exact hx
      · exact h x hx

theorem getBurnedVector_fst (envBase : BurnedData) (s : PoolState)
    (h : poolInvariant envBase s) :
    (getBurnedVector envBase s).1 = envBase := by
  obtain ⟨l⟩ := s
  cases l with
  | nil => rfl
  | cons v rest => exact h v (List.mem_cons_self v rest)

theorem poolInvariant_run (envBase : BurnedData) (ops : List PoolOp)
    (s : PoolState) (h : poolInvariant envBase s) :
    poolInvariant envBase (runPoolOps envBase ops s) := by
  induction ops generalizing s with
  | nil => exact h
  | cons op rest ih =>
      cases op with
      | get => exact ih _ (poolInvariant_get envBase s h)
      | release ob => exact ih _ (poolInvariant_release envBase s ob h)

/-- C9: releasing a buffer stores it reset (never the raw buffer),
releasing null is a no-op, and consequently — starting from the model's
empty pool and after any sequence of get/release operations — every buffer
`getBurnedVector` hands out (reused or fresh) equals the environment's
reset state, carrying no burned-cell state from a previous scenario. -/
theorem burned_vector_pool_correct (envBase : BurnedData) :
    (∀ (s : PoolState) (b : BurnedData),
        (releaseBurnedVector envBase s (some b)).vectors_
          = resetBurnedData envBase b :: s.vectors_)
      ∧ (∀ s : PoolState, releaseBurnedVector envBase s none = s)
      ∧ (∀ ops : List PoolOp,
          (getBurnedVector envBase (runPoolOps envBase ops ⟨[]⟩)).1 = envBase) := by
  refine ⟨fun s b => rfl, fun s => rfl, fun ops => ?_⟩
  have hinv : poolInvariant envBase (runPoolOps envBase ops ⟨[]⟩) :=
    poolInvariant_run envBase ops ⟨[]⟩ (by intro b hb; cases hb)
  exact getBurnedVector_fst envBase _ hinv

/-! ## C10: `util::LookupTable` (LookupTable.h) -/

/-- Contents of the `values_` array built by `LookupTable::makeValues`:
entry `i` holds `Fct(i / 10^Precision)` for
`i < 10^IndexDigits * 10^Precision`. -/
def LookupTable_values (Fct : ℚ → ℚ) (Precision : ℕ) (i : ℕ) : ℚ :=
  Fct ((i : ℚ) / (10 : ℚ) ^ Precision)

/-- Embedding of `LookupTable::operator()`:
`values_.at(static_cast<size_t>(value * pow_int<Precision>(10)))`, where
the `size_t` cast truncates toward zero and `.at` throws (modelled as
`none`) when the index is out of bounds. -/
def LookupTable_call (Fct : ℚ → ℚ) (IndexDigits Precision : ℕ) (value : ℚ) :
    Option ℚ :=
  let idx := (⌊value * (10 : ℚ) ^ Precision⌋).toNat
  if idx < 10 ^ IndexDigits * 10 ^ Precision then
    some (LookupTable_values Fct Precision idx)
  else none

/-- Truncation of `v` to `Precision` decimal digits (the value the direct
call sees per the claim). -/
def truncToPrecision (Precision : ℕ) (v : ℚ) : ℚ :=
  ((⌊v * (10 : ℚ) ^ Precision⌋ : ℚ)) / (10 : ℚ) ^ Precision

/-- C10: on `0 ≤ v < 10^IndexDigits`, the table lookup succeeds and equals
the direct evaluation of `Fct` at `v` truncated to `Precision` decimal
digits. -/
theorem LookupTable_refines_direct (Fct : ℚ → ℚ) (IndexDigits Precision : ℕ)
    (v : ℚ) (h0 : 0 ≤ v) (h1 : v < (10 : ℚ) ^ IndexDigits) :
    LookupTable_call Fct IndexDigits Precision v
      = some (Fct (truncToPrecision Precision v)) := by
  have hpow : (0 : ℚ) < (10 : ℚ) ^ Precision := by positivity
  have hfl0 : 0 ≤ ⌊v * (10 : ℚ) ^ Precision⌋ :=
    Int.floor_nonneg.mpr (mul_nonneg h0 (le_of_lt hpow))
  have hflt : ⌊v * (10 : ℚ) ^ Precision⌋
      < ((10 ^ IndexDigits * 10 ^ Precision : ℕ) : ℤ) := by
    apply Int.floor_lt.mpr
    push_cast
    exact mul_lt_mul_of_pos_right h1 hpow
  have hidx : (⌊v * (10 : ℚ) ^ Precision⌋).toNat
      < 10 ^ IndexDigits * 10 ^ Precision := by
    have h2 : ((⌊v * (10 : ℚ) ^ Precision⌋).toNat : ℤ)
        < ((10 ^ IndexDigits * 10 ^ Precision : ℕ) : ℤ) := by
      rw [Int.toNat_of_nonneg hfl0]
      exact hflt
    exact_mod_cast h2
  have hval : (((⌊v * (10 : ℚ) ^ Precision⌋).toNat : ℕ) : ℚ)
      = ((⌊v * (10 : ℚ) ^ Precision⌋ : ℤ) : ℚ) := by
    exact_mod_cast Int.toNat_of_nonneg hfl0
  simp only [LookupTable_call, LookupTable_values, truncToPrecision]
  rw [if_pos hidx, hval]

/-- Witness for C10 at a concrete input: `Fct = (· + 1)`, 3 index digits,
1 digit of precision, `v = 47/20 = 2.35`; the table returns
`Fct(2.3) = 33/10`. -/
theorem LookupTable_refines_direct_witness :
    LookupTable_call (fun x => x + 1) 3 1 (47 / 20) = some (33 / 10) := by
  rw [LookupTable_refines_direct (fun x => x + 1) 3 1 (47 / 20)
    (by norm_num) (by norm_num)]
  have hq : ((47 : ℚ) / 20) * (10 : ℚ) ^ (1 : ℕ) = 47 / 2 := by norm_num
  have hfl : ⌊(47 : ℚ) / 2⌋ = 23 := by
    rw [Int.floor_eq_iff]
    norm_num
  simp only [truncToPrecision, hq, hfl]
  norm_num

/-! ## C1: `Scenario::survives` (Scenario.h) -/

/-- Hourly weather record; only the DMC moisture content percentage is
consulted by `Scenario::survives`. -/
structure FwiWeather where
  mcDmcPct : ℚ

/-- Embedding of `Scenario::survives(time, cell, time_at_location)`.
Inputs standing for the scenario's context:
`deterministic` is `Settings::deterministic()`; `wxAt` is the stream
lookup `weather_->at(time)` with `none` for a thrown `out_of_range`
(caught and turned into `false`); `extinctionThreshold` is the scenario's
per-hour threshold vector lookup; `survProb` is the stream's precomputed
`survivalProbability(time, fuelCode)`. -/
def survives (deterministic : Bool) (wxAt : ℚ → Option FwiWeather)
    (extinctionThreshold : ℚ → ℚ) (survProb : ℚ → ℕ → ℚ)
    (time : ℚ) (cellFuelCode : ℕ) (time_at_location : ℚ) : Bool :=
  if deterministic then
    true
  else
    match wxAt time with
    | none => false
    | some wx =>
      if 100 > wx.mcDmcPct
          ∨ (109 ≥ wx.mcDmcPct ∧ 5 > time_at_location)
          ∨ (119 ≥ wx.mcDmcPct ∧ 4 > time_at_location)
          ∨ (131 ≥ wx.mcDmcPct ∧ 3 > time_at_location)
          ∨ (145 ≥ wx.mcDmcPct ∧ 2 > time_at_location)
          ∨ (218 ≥ wx.mcDmcPct ∧ 1 > time_at_location) then
        true
      else
        decide (extinctionThreshold time < survProb time cellFuelCode)

/-- Helper: an if-else of the shape produced by the `survives` body. -/
theorem ite_decide_eq_true_iff (A B : Prop) [Decidable A] [Decidable B] :
    ((if A then true else decide B) = true) ↔ A ∨ B := by
  by_cases hA : A
  · simp [hA]
  · simp [hA]

/-- Statement of claim C1 in the spec's words: in deterministic mode the
fire always survives; otherwise it survives iff the weather lookup
succeeds and either the DMC moisture content is below the fixed piecewise
limits or the extinction threshold is strictly below the survival
probability (so a failed weather lookup means non-survival). -/
def survives_spec (deterministic : Bool) (wxAt : ℚ → Option FwiWeather)
    (extinctionThreshold : ℚ → ℚ) (survProb : ℚ → ℕ → ℚ)
    (time : ℚ) (cellFuelCode : ℕ) (time_at_location : ℚ) : Prop :=
  deterministic = true
    ∨ ∃ wx, wxAt time = some wx
        ∧ (wx.mcDmcPct < 100
            ∨ (wx.mcDmcPct ≤ 109 ∧ time_at_location < 5)
            ∨ (wx.mcDmcPct ≤ 119 ∧ time_at_location < 4)
            ∨ (wx.mcDmcPct ≤ 131 ∧ time_at_location < 3)
            ∨ (wx.mcDmcPct ≤ 145 ∧ time_at_location < 2)
            ∨ (wx.mcDmcPct ≤ 218 ∧ time_at_location < 1)
            ∨ extinctionThreshold time < survProb time cellFuelCode)

/-- C1: `Scenario::survives` returns true exactly under the conditions of
the spec: always in deterministic mode, and otherwise iff the weather
lookup succeeds and the moisture limits or extinction-threshold comparison
allow survival; a weather lookup that throws `out_of_range` yields false
(non-survival), since no `some` weather exists then. -/
theorem survives_correct (deterministic : Bool) (wxAt : ℚ → Option FwiWeather)
    (extinctionThreshold : ℚ → ℚ) (survProb : ℚ → ℕ → ℚ)
    (time : ℚ) (cellFuelCode : ℕ) (time_at_location : ℚ) :
    survives deterministic wxAt extinctionThreshold survProb
        time cellFuelCode time_at_location = true
      ↔ survives_spec deterministic wxAt extinctionThreshold survProb
          time cellFuelCode time_at_location := by
  unfold survives survives_spec
  cases deterministic with
  | true => simp
  | false =>
      simp only [Bool.false_eq_true, false_or, if_false]
      cases hwx : wxAt time with
      | none =>
          simp only [hwx]
          constructor
          · intro h
            cases h
          · rintro ⟨wx, hsome, -⟩
            cases hsome
      | some wx =>
          simp only [hwx]
          rw [ite_decide_eq_true_iff]
          constructor
          · intro h
            refine ⟨wx, rfl, ?_⟩
            simp only [or_assoc] at h
            exact h
          · rintro ⟨wx', hsome, hcond⟩
            have hw : wx' = wx := by
              injection hsome with h
              exact h.symm
            subst hw
            simp only [or_assoc]
            exact hcond

/-! ## C3: `ProbabilityMap` count-grid invariant (ProbabilityMap.h)

The header declares the four cell→u64 count grids `all_`, `high_`,
`med_`, `low_` and the operations `addProbability`, `addProbabilities`
and `reset`; their bodies live in ProbabilityMap.cpp, which is not under
src/, so the operations are modelled from the spec. Cells are identified
by their packed integer hash. -/

/-- The four count grids of a `ProbabilityMap` (cell hash → count). -/
structure ProbabilityMapState where
  all_ : ℕ → ℕ
  high_ : ℕ → ℕ
  med_ : ℕ → ℕ
  low_ : ℕ → ℕ

/-- A fresh `ProbabilityMap`: all counts zero. -/
def ProbabilityMap_init : ProbabilityMapState :=
  ⟨fun _ => 0, fun _ => 0, fun _ => 0, fun _ => 0⟩

/-- Modelled from the spec: `ProbabilityMap::addProbability(intensity_map)`
(ProbabilityMap.cpp is not under src/). For each cell: a zero intensity is
skipped; otherwise its category (low on `[0, low_max]`, moderate up to
`med_max`, high above) is incremented and `total` is incremented. -/
def addProbability (low_max med_max : ℕ) (im : ℕ → ℕ)
    (s : ProbabilityMapState) : ProbabilityMapState where
  all_ := fun c => s.all_ c + (if im c ≠ 0 then 1 else 0)
  low_ := fun c => s.low_ c + (if im c ≠ 0 ∧ im c ≤ low_max then 1 else 0)
  med_ := fun c =>
    s.med_ c + (if im c ≠ 0 ∧ ¬im c ≤ low_max ∧ im c ≤ med_max then 1 else 0)
  high_ := fun c =>
    s.high_ c + (if im c ≠ 0 ∧ ¬im c ≤ low_max ∧ ¬im c ≤ med_max then 1 else 0)

/-- Modelled from the spec: `ProbabilityMap::addProbabilities(rhs)`
(ProbabilityMap.cpp is not under src/) combines another map's counts into
this one, grid by grid. -/
def addProbabilities (rhs s : ProbabilityMapState) : ProbabilityMapState where
  all_ := fun c => s.all_ c + rhs.all_ c
  high_ := fun c => s.high_ c + rhs.high_ c
  med_ := fun c => s.med_ c + rhs.med_ c
  low_ := fun c => s.low_ c + rhs.low_ c

/-- Modelled from the spec: `ProbabilityMap::reset` clears the maps back
to the initial state (ProbabilityMap.cpp is not under src/). -/
def ProbabilityMap_reset (_s : ProbabilityMapState) : ProbabilityMapState :=
  ProbabilityMap_init

/-- One `ProbabilityMap` operation. The argument of `addProbabilities` is
the per-iteration map the model builds by `addProbability` calls on a
fresh copy (`copyEmpty`), matching the call pattern in
`Model::runIterations`. -/
inductive PMapOp where
  | addProbability : (ℕ → ℕ) → PMapOp
  | addProbabilities : List (ℕ → ℕ) → PMapOp
  | reset : PMapOp

/-- Build a map from a fresh copy by a sequence of `addProbability` calls. -/
def buildPMap (low_max med_max : ℕ) : List (ℕ → ℕ) → ProbabilityMapState
  | [] => ProbabilityMap_init
  | im :: rest => addProbability low_max med_max im (buildPMap low_max med_max rest)

/-- Apply one operation. -/
def applyPMapOp (low_max med_max : ℕ) (s : ProbabilityMapState) :
    PMapOp → ProbabilityMapState
  | PMapOp.addProbability im => addProbability low_max med_max im s
  | PMapOp.addProbabilities ims => addProbabilities (buildPMap low_max med_max ims) s
  | PMapOp.reset => ProbabilityMap_reset s

/-- Apply a sequence of operations. -/
def applyPMapOps (low_max med_max : ℕ) : List PMapOp → ProbabilityMapState →
    ProbabilityMapState
  | [], s => s
  | op :: rest, s =>
      applyPMapOps low_max med_max rest (applyPMapOp low_max med_max s op)

/-- Per-cell invariant: `total = low + moderate + high`. -/
def pmapInvariant (s : ProbabilityMapState) : Prop :=
  ∀ c, s.all_ c = s.low_ c + s.med_ c + s.high_ c

theorem pmapInvariant_init : pmapInvariant ProbabilityMap_init := by
  intro c
  rfl

theorem pmapInvariant_addProbability (low_max med_max : ℕ) (im : ℕ → ℕ)
    (s : ProbabilityMapState) (h : pmapInvariant s) :
    pmapInvariant (addProbability low_max med_max im s) := by
  intro c
  simp only [addProbability]
  have hc := h c
  by_cases h0 : im c ≠ 0
  · by_cases hlow : im c ≤ low_max
    · simp [h0, hlow]
      omega
    · by_cases hmed : im c ≤ med_max
      · simp [h0, hlow, hmed]
        omega
      · simp [h0, hlow, hmed]
        omega
  · simp [h0]
    omega

theorem pmapInvariant_addProbabilities (rhs s : ProbabilityMapState)
    (hrhs : pmapInvariant rhs) (h : pmapInvariant s) :
    pmapInvariant (addProbabilities rhs s) := by
  intro c
  simp only [addProbabilities]
  have := hrhs c
  have := h c
  omega

theorem pmapInvariant_build (low_max med_max : ℕ) (ims : List (ℕ → ℕ)) :
    pmapInvariant (buildPMap low_max med_max ims) := by
  induction ims with
  | nil => exact pmapInvariant_init
  | cons im rest ih =>
      exact pmapInvariant_addProbability low_max med_max im _ ih

/-- C3: for every `ProbabilityMap` and cell, after any sequence of
`addProbability` / `addProbabilities` / `reset` operations starting from a
fresh map, the `total` count equals the sum of the `low`, `moderate` and
`high` counts. -/
theorem probabilityMap_total_invariant (low_max med_max : ℕ) (ops : List PMapOp) :
    pmapInvariant (applyPMapOps low_max med_max ops ProbabilityMap_init) := by
  have step : ∀ (s : ProbabilityMapState) (op : PMapOp), pmapInvariant s →
      pmapInvariant (applyPMapOp low_max med_max s op) := by
    intro s op hs
    cases op with
    | addProbability im => exact pmapInvariant_addProbability low_max med_max im s hs
    | addProbabilities ims =>
        exact pmapInvariant_addProbabilities _ s
          (pmapInvariant_build low_max med_max ims) hs
    | reset => exact pmapInvariant_init
  have main : ∀ (ops : List PMapOp) (s : ProbabilityMapState), pmapInvariant s →
      pmapInvariant (applyPMapOps low_max med_max ops s) := by
    intro ops
    induction ops with
    | nil => intro s hs; exact hs
    | cons op rest ih =>
        intro s hs
        exact ih _ (step s op hs)
  exact main ops ProbabilityMap_init pmapInvariant_init

/-! ## C7: angle round-trip `to_degrees(to_radians(θ)) ≡ θ (mod 360)` (Util.h) -/

/-- Constant `M_2_X_PI` (2π; defined outside src/, value per its name and
the doc comment "360 degrees in radians" on `RAD_360 = to_radians(360)`). -/
noncomputable def M_2_X_PI : ℝ := 2 * Real.pi

/-- Constant `M_RADIANS_TO_DEGREES` (180/π; defined outside src/, value
per its name: multiplying radians by it yields degrees). -/
noncomputable def M_RADIANS_TO_DEGREES : ℝ := 180 / Real.pi

/-- Embedding of `util::fix_radians`: one conditional adjustment by 2π
toward the range [0, 2π]. -/
noncomputable def fix_radians (theta : ℝ) : ℝ :=
  if theta > M_2_X_PI then theta - M_2_X_PI
  else if theta < 0 then theta + M_2_X_PI
  else theta

/-- Embedding of `util::to_radians`. -/
noncomputable def to_radians (degrees : ℝ) : ℝ :=
  fix_radians (degrees / M_RADIANS_TO_DEGREES)

/-- Embedding of `util::to_degrees`. -/
noncomputable def to_degrees (radians : ℝ) : ℝ :=
  fix_radians radians * M_RADIANS_TO_DEGREES

/-- `fix_radians` changes its argument by an integer multiple of 2π. -/
theorem fix_radians_congruent (x : ℝ) :
    ∃ k : ℤ, fix_radians x = x + M_2_X_PI * k := by
  unfold fix_radians
  by_cases h1 : x > M_2_X_PI
  · refine ⟨-1, ?_⟩
    rw [if_pos h1]
    push_cast
    ring
  · rw [if_neg h1]
    by_cases h2 : x < 0
    · refine ⟨1, ?_⟩
      rw [if_pos h2]
      push_cast
      ring
    · refine ⟨0, ?_⟩
      rw [if_neg h2]
      push_cast
      ring

/-- C7: for every angle θ in degrees, `to_degrees(to_radians(θ))` is
congruent to θ modulo 360 degrees. -/
theorem to_degrees_to_radians_mod360 (theta : ℝ) :
    ∃ k : ℤ, to_degrees (to_radians theta) = theta + 360 * k := by
  obtain ⟨k2, h2⟩ := fix_radians_congruent (to_radians theta)
  obtain ⟨k1, h1⟩ := fix_radians_congruent (theta / M_RADIANS_TO_DEGREES)
  refine ⟨k1 + k2, ?_⟩
  unfold to_degrees
  rw [h2]
  unfold to_radians
  rw [h1]
  unfold M_RADIANS_TO_DEGREES M_2_X_PI
  have hpi : Real.pi ≠ 0 := Real.pi_ne_zero
  push_cast
  field_simp
  ring

/-! ## C8: `FuelBase::probabilityPeat` is monotone decreasing (FuelType.h) -/

/-- Embedding of `FuelBase<BulkDensity, InorganicPercent, DuffDepth>::
probabilityPeat(mc_fraction)` [Anderson eq 1]; `BulkDensity` and
`InorganicPercent` are the integer template arguments of the fuel type
(scaled by 1000 resp. 100 in `bulkDensity()` / `inorganicPercent()`). -/
noncomputable def probabilityPeat (BulkDensity InorganicPercent : ℤ)
    (mc_fraction : ℝ) : ℝ :=
  let pb : ℝ := (BulkDensity : ℝ) / 1000
  let fi : ℝ := (InorganicPercent : ℝ) / 100
  let pi_inorganic : ℝ := fi * pb
  let ri : ℝ := fi / (1 - fi)
  let const_part : ℝ := -19.329 + 1.7170 * ri + 23.059 * pi_inorganic
  1 / (1 + Real.exp (17.047 * mc_fraction / (1 - fi) + const_part))

/-- C8: for every fuel type (any duff bulk density, any inorganic percent
below 100 — all Anderson table 1 inorganic percents are) the probability
of burning is strictly decreasing in the moisture-content fraction. -/
theorem probabilityPeat_strict_anti (BulkDensity InorganicPercent : ℤ)
    (hip : InorganicPercent < 100) (mc1 mc2 : ℝ) (h : mc1 < mc2) :
    probabilityPeat BulkDensity InorganicPercent mc2
      < probabilityPeat BulkDensity InorganicPercent mc1 := by
  have hfi : (InorganicPercent : ℝ) / 100 < 1 := by
    have h100 : (InorganicPercent : ℝ) < 100 := by exact_mod_cast hip
    linarith
  have hpos : (0 : ℝ) < 1 - (InorganicPercent : ℝ) / 100 := by linarith
  simp only [probabilityPeat]
  have harg : (17.047 : ℝ) * mc1 / (1 - (InorganicPercent : ℝ) / 100)
      < 17.047 * mc2 / (1 - (InorganicPercent : ℝ) / 100) := by
    apply div_lt_div_of_pos_right ?_ hpos
    nlinarith
  have hexp : Real.exp (17.047 * mc1 / (1 - (InorganicPercent : ℝ) / 100)
        + (-19.329 + 1.7170 * ((InorganicPercent : ℝ) / 100
            / (1 - (InorganicPercent : ℝ) / 100))
          + 23.059 * ((InorganicPercent : ℝ) / 100 * ((BulkDensity : ℝ) / 1000))))
      < Real.exp (17.047 * mc2 / (1 - (InorganicPercent : ℝ) / 100)
        + (-19.329 + 1.7170 * ((InorganicPercent : ℝ) / 100
            / (1 - (InorganicPercent : ℝ) / 100))
          + 23.059 * ((InorganicPercent : ℝ) / 100 * ((BulkDensity : ℝ) / 1000)))) :=
    Real.exp_lt_exp.mpr (by linarith)
  have hd1 : (0 : ℝ) < 1 + Real.exp (17.047 * mc1
      / (1 - (InorganicPercent : ℝ) / 100)
        + (-19.329 + 1.7170 * ((InorganicPercent : ℝ) / 100
            / (1 - (InorganicPercent : ℝ) / 100))
          + 23.059 * ((InorganicPercent : ℝ) / 100 * ((BulkDensity : ℝ) / 1000)))) := by
    positivity
  exact one_div_lt_one_div_of_lt hd1 (by linarith)

/-- Witness for C8 at a concrete fuel (bulk density argument 124,
inorganic percent 10) and moisture fractions 0 < 1. -/
theorem probabilityPeat_strict_anti_witness :
    probabilityPeat 124 10 1 < probabilityPeat 124 10 0 :=
  probabilityPeat_strict_anti 124 10 (by decide) 0 1 zero_lt_one

/-! ## C6: sunrise/sunset sentinels (StartPoint.cpp)

`sunrise_sunset` calls the trigonometric primitives `_sin`, `_cos`, `tan`,
`atan`, `asin`, `acos` from unstable.h and the conversion constants
`M_2_X_PI` / `M_RADIANS_TO_DEGREES`, none of which are under src/; the
embedding is parametrized over them, mirroring the source's structure
exactly over ℚ. -/

/-- External math primitives used by StartPoint.cpp (unstable.h and the
angle constants are not under src/). -/
structure MathLib where
  twoPi : ℚ
  radToDeg : ℚ
  sin : ℚ → ℚ
  cos : ℚ → ℚ
  tan : ℚ → ℚ
  atan : ℚ → ℚ
  asin : ℚ → ℚ
  acos : ℚ → ℚ

/-- Embedding of `util::fix_radians` over the parametrized constants. -/
def fix_radiansQ (env : MathLib) (theta : ℚ) : ℚ :=
  if theta > env.twoPi then theta - env.twoPi
  else if theta < 0 then theta + env.twoPi
  else theta

/-- Embedding of `util::to_radians` over the parametrized constants. -/
def to_radiansQ (env : MathLib) (degrees : ℚ) : ℚ :=
  fix_radiansQ env (degrees / env.radToDeg)

/-- Embedding of `util::to_degrees` over the parametrized constants. -/
def to_degreesQ (env : MathLib) (radians : ℚ) : ℚ :=
  fix_radiansQ env radians * env.radToDeg

/-- Embedding of `fix_range(value, 0, max_value)` from StartPoint.cpp:
the add/subtract loop with `min_value = 0` computes, for positive
`max_value`, the representative of `value` in `[0, max_value)`. -/
def fix_range (value max_value : ℚ) : ℚ :=
  value - max_value * ⌊value / max_value⌋

/-- Embedding of `fix_degrees` (range [0, 360)). -/
def fix_degrees (value : ℚ) : ℚ := fix_range value 360

/-- Embedding of `fix_hours` (range [0, 24)). -/
def fix_hours (value : ℚ) : ℚ := fix_range value 24

/-- Local `Zenith` constant of `sunrise_sunset`: `to_radians(96)`. -/
def ss_Zenith (env : MathLib) : ℚ := to_radiansQ env 96

/-- Intermediate `t` of `sunrise_sunset` (`t_hour` is 6 for sunrise, 18
for sunset). -/
def ss_t (jd : ℤ) (longitude : ℚ) (for_sunrise : Bool) : ℚ :=
  (jd : ℚ) + ((if for_sunrise then (6 : ℚ) else 18) - longitude / 15) / 24

/-- Intermediate `m` of `sunrise_sunset`. -/
def ss_m (jd : ℤ) (longitude : ℚ) (for_sunrise : Bool) : ℚ :=
  0.9856 * ss_t jd longitude for_sunrise - 3.289

/-- Intermediate `l` of `sunrise_sunset`. -/
def ss_l (env : MathLib) (jd : ℤ) (longitude : ℚ) (for_sunrise : Bool) : ℚ :=
  fix_degrees (ss_m jd longitude for_sunrise
    + 1.916 * env.sin (to_radiansQ env (ss_m jd longitude for_sunrise))
    + 0.020 * env.sin (to_radiansQ env (2 * ss_m jd longitude for_sunrise))
    + 282.634)

/-- Intermediate `ra` of `sunrise_sunset` after the quadrant adjustment
and division by 15. -/
def ss_ra (env : MathLib) (jd : ℤ) (longitude : ℚ) (for_sunrise : Bool) : ℚ :=
  let l := ss_l env jd longitude for_sunrise
  let ra0 := fix_degrees (to_degreesQ env (env.atan (0.91764 * env.tan (to_radiansQ env l))))
  let l_quadrant := (⌊l / 90⌋ : ℚ) * 90
  let ra_quadrant := (⌊ra0 / 90⌋ : ℚ) * 90
  (ra0 + l_quadrant - ra_quadrant) / 15

/-- Intermediate `sin_dec` of `sunrise_sunset`. -/
def ss_sin_dec (env : MathLib) (jd : ℤ) (longitude : ℚ) (for_sunrise : Bool) : ℚ :=
  0.39782 * env.sin (to_radiansQ env (ss_l env jd longitude for_sunrise))

/-- Intermediate `cos_dec` of `sunrise_sunset`. -/
def ss_cos_dec (env : MathLib) (jd : ℤ) (longitude : ℚ) (for_sunrise : Bool) : ℚ :=
  env.cos (env.asin (ss_sin_dec env jd longitude for_sunrise))

/-- Intermediate `cos_h` of `sunrise_sunset`. -/
def ss_cos_h (env : MathLib) (jd : ℤ) (latitude longitude : ℚ)
    (for_sunrise : Bool) : ℚ :=
  (env.cos (ss_Zenith env)
      - ss_sin_dec env jd longitude for_sunrise * env.sin (to_radiansQ env latitude))
    / (ss_cos_dec env jd longitude for_sunrise * env.cos (to_radiansQ env latitude))

/-- Embedding of `sunrise_sunset(jd, latitude, longitude, for_sunrise)`
from StartPoint.cpp (`LocalOffset = -5`). -/
def sunrise_sunset (env : MathLib) (jd : ℤ) (latitude longitude : ℚ)
    (for_sunrise : Bool) : ℚ :=
  let lng_hour := longitude / 15
  let cos_h := ss_cos_h env jd latitude longitude for_sunrise
  if cos_h > 1 then
    if for_sunrise then -1 else 25
  else if cos_h < -1 then
    if for_sunrise then 25 else -1
  else
    let h0 := to_degreesQ env (env.acos cos_h)
    let h := (if for_sunrise then 360 - h0 else h0) / 15
    let mean_t := h + ss_ra env jd longitude for_sunrise
      - 0.06571 * ss_t jd longitude for_sunrise - 6.622
    let ut := mean_t - lng_hour
    fix_hours (ut + (-5))

/-- Embedding of `sunrise`. -/
def sunrise (env : MathLib) (jd : ℤ) (latitude longitude : ℚ) : ℚ :=
  sunrise_sunset env jd latitude longitude true

/-- Embedding of `sunset`. -/
def sunset (env : MathLib) (jd : ℤ) (latitude longitude : ℚ) : ℚ :=
  sunrise_sunset env jd latitude longitude false

/-- C6: whenever the intermediate `cos h` exceeds 1 (sun never rises),
`sunrise` returns the sentinel −1 and `sunset` returns 25. -/
theorem sunrise_sunset_sentinels (env : MathLib) (jd : ℤ)
    (latitude longitude : ℚ) :
    (ss_cos_h env jd latitude longitude true > 1 →
        sunrise env jd latitude longitude = -1)
      ∧ (ss_cos_h env jd latitude longitude false > 1 →
          sunset env jd latitude longitude = 25) := by
  constructor
  · intro h
    unfold sunrise sunrise_sunset
    rw [if_pos h]
    rfl
  · intro h
    unfold sunset sunrise_sunset
    rw [if_pos h]
    rfl

/-- Stub math library making `cos h` concrete: constant cosine 1/5 and
zero for the other primitives give `cos_h = (1/5) / (1/25) = 5 > 1`. -/
def trigStub : MathLib where
  twoPi := 1
  radToDeg := 1
  sin := fun _ => 0
  cos := fun _ => 1 / 5
  tan := fun _ => 0
  atan := fun _ => 0
  asin := fun _ => 0
  acos := fun _ => 0

theorem trigStub_cos_h (for_sunrise : Bool) :
    ss_cos_h trigStub 0 0 0 for_sunrise > 1 := by
  simp only [ss_cos_h, ss_cos_dec, ss_sin_dec, ss_Zenith, to_radiansQ,
    fix_radiansQ, trigStub]
  norm_num

/-- Witness for C6 at a concrete input: with the stub math library,
`cos_h = 5 > 1`, and the sentinels −1 / 25 are returned. -/
theorem sunrise_sunset_sentinels_witness :
    sunrise trigStub 0 0 0 = -1 ∧ sunset trigStub 0 0 0 = 25 :=
  ⟨(sunrise_sunset_sentinels trigStub 0 0 0).1 (trigStub_cos_h true),
    (sunrise_sunset_sentinels trigStub 0 0 0).2 (trigStub_cos_h false)⟩

/-! ## C4: `FuelLookupImpl::FuelLookupImpl` mixed-wood defaults (FuelType.h)

The constructor maps the generic entries "M-1", "M-2", "M-1/M-2", "M-3",
"M-4", "M-3/M-4" through `FuelLookup::Fuels.at(offset + safeCode(...))`
where `offset = percent/5 - 1` in `size_t` arithmetic. Fuels are
identified below by their declared codes (FuelType.h lines 1244-1384). -/

/-- Modulus of `size_t` arithmetic. -/
def SIZE_T_MOD : ℕ := 2 ^ 64

/-- The `size_t` expression `a - 1` (wraps at zero). -/
def size_t_sub1 (a : ℕ) : ℕ := (a + (SIZE_T_MOD - 1)) % SIZE_T_MOD

/-- The `size_t` expression `a + b`. -/
def size_t_add (a b : ℕ) : ℕ := (a + b) % SIZE_T_MOD

/-- The `FuelLookup::Fuels` array (declaration order of FuelType.h lines
1706-1848), each entry replaced by the declared code of the fuel it points
to. Entries 0-113 are in code order (`NULL_FUEL` 0 … `M4_100` 113); then
`M3_M4_00` (code 139), `M3_M4_05` … `M3_M4_95` (codes 114-132), then
`M1_00`, `M2_00`, `M1_M2_00`, `M3_00`, `M4_00` (codes 134-138),
`M3_M4_100` (code 133) and `O1` (code 140); written out entry by entry. -/
def Fuels : List ℕ :=
  [0, 1, 2, 3, 4, 5, 6, 7, 8, 9, 10, 11, 12, 13, 14, 15, 16, 17, 18, 19,
    20, 21, 22, 23, 24, 25, 26, 27, 28, 29, 30, 31, 32, 33, 34, 35, 36,
    37, 38, 39, 40, 41, 42, 43, 44, 45, 46, 47, 48, 49, 50, 51, 52, 53,
    54, 55, 56, 57, 58, 59, 60, 61, 62, 63, 64, 65, 66, 67, 68, 69, 70,
    71, 72, 73, 74, 75, 76, 77, 78, 79, 80, 81, 82, 83, 84, 85, 86, 87,
    88, 89, 90, 91, 92, 93, 94, 95, 96, 97, 98, 99, 100, 101, 102, 103,
    104, 105, 106, 107, 108, 109, 110, 111, 112, 113, 139, 114, 115, 116,
    117, 118, 119, 120, 121, 122, 123, 124, 125, 126, 127, 128, 129, 130,
    131, 132, 134, 135, 136, 137, 138, 133, 140]

/-- `FuelLookup::Fuels.at(i)`: `none` models a thrown `out_of_range`. -/
def Fuels_at (i : ℕ) : Option ℕ := Fuels[i]?

/-- Declared code of `M1_05` (`safeCode(&M1_05)`). -/
def code_M1_05 : ℕ := 17

/-- Declared code of `M2_05` (`safeCode(&M2_05)`). -/
def code_M2_05 : ℕ := 36

/-- Declared code of `M1_M2_05` (`safeCode(&M1_M2_05)`). -/
def code_M1_M2_05 : ℕ := 55

/-- Declared code of `M3_05` (`safeCode(&M3_05)`). -/
def code_M3_05 : ℕ := 74

/-- Declared code of `M4_05` (`safeCode(&M4_05)`). -/
def code_M4_05 : ℕ := 94

/-- Declared code of `M3_M4_05` (`safeCode(&M3_M4_05)`). -/
def code_M3_M4_05 : ℕ := 114

/-- Codes assigned by the constructor to the six generic mixed-wood
entries "M-1", "M-2", "M-1/M-2", "M-3", "M-4", "M-3/M-4". -/
structure MixedwoodCodes where
  m1 : ℕ
  m2 : ℕ
  m1m2 : ℕ
  m3 : ℕ
  m4 : ℕ
  m3m4 : ℕ
deriving DecidableEq

/-- Embedding of the mixed-wood part of the `FuelLookupImpl` constructor:
the two `check_fatal` validations of `defaultPercentConifer` /
`defaultPercentDeadFir` (a fatal abort is `none`) and the six
`emplaceFuel(..., FuelLookup::Fuels.at(offset + safeCode(...)))` lookups,
returning the codes assigned to ("M-1", "M-2", "M-1/M-2", "M-3", "M-4",
"M-3/M-4"); a throwing `.at` is also `none`. -/
def fuelLookupCtorMixed (pc pdf : ℤ) : Option MixedwoodCodes :=
  if 0 ≥ pc ∨ 100 ≤ pc ∨ pc % 5 ≠ 0 then none
  else
    let pc_offset := size_t_sub1 (pc.toNat / 5)
    (Fuels_at (size_t_add pc_offset code_M1_05)).bind fun m1 =>
      (Fuels_at (size_t_add pc_offset code_M2_05)).bind fun m2 =>
        (Fuels_at (size_t_add pc_offset code_M1_M2_05)).bind fun m1m2 =>
          if 0 > pdf ∨ 100 < pdf ∨ pdf % 5 ≠ 0 then none
          else
            let pdf_offset := size_t_sub1 (pdf.toNat / 5)
            (Fuels_at (size_t_add pdf_offset code_M3_05)).bind fun m3 =>
              (Fuels_at (size_t_add pdf_offset code_M4_05)).bind fun m4 =>
                (Fuels_at (size_t_add pdf_offset code_M3_M4_05)).map fun m3m4 =>
                  ⟨m1, m2, m1m2, m3, m4, m3m4⟩

/-- Declared code of the concrete "M-1 (pc PC)" variant (codes 17-35 for
5-95%, `M1_00` is 134). -/
def code_of_M1 (pc : ℕ) : ℕ := if pc = 0 then 134 else 16 + pc / 5

/-- Declared code of the concrete "M-2 (pc PC)" variant (codes 36-54 for
5-95%, `M2_00` is 135). -/
def code_of_M2 (pc : ℕ) : ℕ := if pc = 0 then 135 else 35 + pc / 5

/-- Declared code of the concrete "M-1/M-2 (pc PC)" variant (codes 55-73
for 5-95%, `M1_M2_00` is 136). -/
def code_of_M1M2 (pc : ℕ) : ℕ := if pc = 0 then 136 else 54 + pc / 5

/-- Declared code of the concrete "M-3 (pdf PDF)" variant (codes 74-93 for
5-100%, `M3_00` is 137). -/
def code_of_M3 (pdf : ℕ) : ℕ := if pdf = 0 then 137 else 73 + pdf / 5

/-- Declared code of the concrete "M-4 (pdf PDF)" variant (codes 94-113
for 5-100%, `M4_00` is 138). -/
def code_of_M4 (pdf : ℕ) : ℕ := if pdf = 0 then 138 else 93 + pdf / 5

/-- Declared code of the concrete "M-3/M-4 (pdf PDF)" variant (codes
114-132 for 5-95%, `M3_M4_100` is 133, `M3_M4_00` is 139). -/
def code_of_M3M4 (pdf : ℕ) : ℕ :=
  if pdf = 0 then 139 else if pdf = 100 then 133 else 113 + pdf / 5

/-- Counterexample to C4 as stated: percent conifer 0 is a multiple of 5
in [0,100], but the constructor aborts with a fatal error
(`check_fatal(0 >= pc || ...)`) instead of succeeding and mapping the
generic entries to the 0% variants (shown here with percent dead fir 50). -/
theorem fuelLookup_mixedwood_claim_fails_at_zero :
    ¬(fuelLookupCtorMixed 0 50
        = some ⟨code_of_M1 0, code_of_M2 0, code_of_M1M2 0,
            code_of_M3 50, code_of_M4 50, code_of_M3M4 50⟩) := by
  decide

set_option maxHeartbeats 4000000 in
/-- C4 (amended): for percent conifer `5k` with `1 ≤ k ≤ 19` and percent
dead fir `5j` with `0 ≤ j ≤ 20` construction succeeds; "M-1", "M-2",
"M-1/M-2" map to the variants for `5k`; for `j ≥ 1` "M-3" and "M-4" map to
the variants for `5j` but "M-3/M-4" maps to the variant for `5(j-1)` (the
`Fuels` array places `M3_M4_00` at the index `safeCode(&M3_M4_05)` points
at, shifting the block by one); for `j = 0` the `size_t` offset underflow
maps "M-3", "M-4", "M-3/M-4" to the unrelated codes 73, 93, 113
(`M1_M2_95`, `M3_100`, `M4_100`). Percent conifer 0 or 100 aborts
(fatal). -/
theorem fuelLookup_mixedwood_amended :
    (∀ k : ℕ, k < 20 → ∀ j : ℕ, j < 21 → 1 ≤ k →
        fuelLookupCtorMixed (5 * (k : ℤ)) (5 * (j : ℤ))
          = some ⟨code_of_M1 (5 * k), code_of_M2 (5 * k), code_of_M1M2 (5 * k),
              (if j = 0 then 73 else code_of_M3 (5 * j)),
              (if j = 0 then 93 else code_of_M4 (5 * j)),
              (if j = 0 then 113 else code_of_M3M4 (5 * (j - 1)))⟩)
      ∧ (∀ j : ℕ, j < 21 → fuelLookupCtorMixed 0 (5 * (j : ℤ)) = none
          ∧ fuelLookupCtorMixed 100 (5 * (j : ℤ)) = none) := by
  constructor
  · decide
  · decide

/-- Witness for the amended C4 at percent conifer 5, percent dead fir 5:
construction succeeds, "M-3/M-4" gets the 0% variant (code 139). -/
theorem fuelLookup_mixedwood_amended_witness :
    fuelLookupCtorMixed 5 5
      = some ⟨code_of_M1 5, code_of_M2 5, code_of_M1M2 5,
          code_of_M3 5, code_of_M4 5, code_of_M3M4 0⟩ := by
  have h := fuelLookup_mixedwood_amended.1 1 (by decide) 1 (by decide) (by decide)
  simpa using h

end Firestarr
